import Mathlib

/-!
Verification development for `apps/buzz/generate_icons.py`.

The script draws a white letter on a blue square canvas at two sizes and
saves each canvas as a PNG file in the `public` directory, creating the
directory first when it is absent.  We embed the script as pure Lean
functions.  Interaction with the outside world (the PIL font loader, the
success of a file write, the filesystem entry at the path `public`) is
captured by an explicit environment record, so that every run of the
script is a function of that environment.
-/

namespace Buzz

/-- Kind of filesystem entry sitting at the path `public`. -/
inductive EntryKind where
  | file
  | dir
deriving DecidableEq, Repr

/-- The slice of the filesystem the script touches: the entry at `public`
(absent, a regular file, or a directory), plus two ghost counters recording
how many times the script performed the existence check of line 5 and how
many times it invoked `os.makedirs` of line 6. -/
structure FS where
  publicEntry : Option EntryKind
  checkCalls : Nat
  mkdirCalls : Nat
deriving DecidableEq, Repr

/-- Line 5: `os.path.exists('public')` — true when any entry (file or
directory) sits at the path, with no check that it is a directory. -/
def path_exists (fs : FS) : Bool := fs.publicEntry.isSome

/-- Line 6: `os.makedirs('public')` — creates the directory; with the
default `exist_ok=False` it raises `FileExistsError` when an entry is
already present. -/
def makedirs (fs : FS) : FS × Option String :=
  let fs1 : FS := { fs with mkdirCalls := fs.mkdirCalls + 1 }
  match fs1.publicEntry with
  | some _ => (fs1, some "FileExistsError")
  | none => ({ fs1 with publicEntry := some EntryKind.dir }, none)

/-- Lines 5 and 6: create the `public` directory only when no entry with
that name is found. -/
def ensureDir (fs : FS) : FS × Option String :=
  let fs1 : FS := { fs with checkCalls := fs.checkCalls + 1 }
  if path_exists fs1 then (fs1, none) else makedirs fs1

/-- A text bounding box (left, top, right, bottom) as reported by
`ImageDraw.textbbox`. -/
structure BBox where
  left : Int
  top : Int
  right : Int
  bottom : Int
deriving DecidableEq, Repr

/-- A font as the script observes it: the only question the script asks a
font is the bounding box of the text `"B"` measured at anchor `(0, 0)`,
which the rasterizer then translates by the draw position. -/
structure Font where
  bboxB : BBox
deriving DecidableEq, Repr

/-- Semantics of `draw.textbbox(xy, "B", font=f)` (and of the extent the
glyph occupies on the canvas when drawn at `xy`): the bounding box measured
at the origin, translated by the anchor `xy`. -/
def textbbox (xy : Int × Int) (f : Font) : BBox :=
  ⟨xy.1 + f.bboxB.left, xy.2 + f.bboxB.top, xy.1 + f.bboxB.right, xy.2 + f.bboxB.bottom⟩

/-- Line 18: `font_size = int(size * 0.4)`.  The literal `0.4` denotes the
IEEE-754 double 3602879701896397 / 2^53; `int` truncates toward zero.  We
compute the exact rational product and truncate.  The float computation
first rounds the product to 53 significand bits, but that rounding never
crosses an integer boundary for the sizes this program processes (the
products are 76.800000000000004 and 204.8000000000000113), so the embedded
value agrees with the script. -/
def font_size (size : Nat) : Nat := size * 3602879701896397 / 2 ^ 53

/-- The environment of one run: the outcome of
`ImageFont.truetype("arial.ttf", n)` for each requested point size `n`
(`none` meaning the call raises), the font returned by the always
successful `ImageFont.load_default()`, and whether `img.save` succeeds for
a given icon size. -/
structure Env where
  loadTruetype : Nat → Option Font
  defaultFont : Font
  saveOk : Nat → Bool

/-- Lines 16 to 22: try the system font at `font_size size`; the bare
`except:` clause turns any failure into a silent substitution of the
default font. -/
def resolveFont (env : Env) (size : Nat) : Font :=
  match env.loadTruetype (font_size size) with
  | some f => f
  | none => env.defaultFont

/-- Line 27: `text_width = bbox[2] - bbox[0]`. -/
def textWidth (b : BBox) : Int := b.right - b.left

/-- Line 28: `text_height = bbox[3] - bbox[1]`. -/
def textHeight (b : BBox) : Int := b.bottom - b.top

/-- Line 29: `position = ((size - text_width) // 2, (size - text_height) // 2)`.
Python `//` is floor division, `Int.fdiv` in Lean.  No clamping follows. -/
def position (size : Nat) (b : BBox) : Int × Int :=
  (((size : Int) - textWidth b).fdiv 2, ((size : Int) - textHeight b).fdiv 2)

/-- The draw origin as the specification words it: a pair
`((canvas_size - glyph_width) / 2, (canvas_size - glyph_height) / 2)` using
integer floor division, where glyph width is `right - left` and glyph
height is `bottom - top` of the bounding box. -/
def position_spec (size : Nat) (b : BBox) : Int × Int :=
  (((size : Int) - (b.right - b.left)).fdiv 2,
   ((size : Int) - (b.bottom - b.top)).fdiv 2)

/-- One recorded `draw.text` call. -/
structure TextCall where
  pos : Int × Int
  text : String
  fill : String
  font : Font
deriving DecidableEq, Repr

/-- The in-memory canvas: `Image.new('RGB', (size, size), color='#3b82f6')`
followed by the draw calls performed on it. -/
structure Image where
  width : Nat
  height : Nat
  mode : String
  background : String
  texts : List TextCall
deriving DecidableEq, Repr

/-- Lines 12 to 30: build the canvas for one size — blue background,
resolved font, measured bounding box, centered position, one white `"B"`. -/
def generateImage (env : Env) (size : Nat) : Image :=
  let font := resolveFont env size
  let bbox := textbbox (0, 0) font
  let pos := position size bbox
  { width := size
    height := size
    mode := "RGB"
    background := "#3b82f6"
    texts := [{ pos := pos, text := "B", fill := "white", font := font }] }

/-- The path of line 33: `public/icon-{size}x{size}.png`. -/
def iconName (size : Nat) : String := s!"public/icon-{size}x{size}.png"

/-- The progress notice of line 34: `Created icon-{size}x{size}.png`. -/
def progressLine (size : Nat) : String := s!"Created icon-{size}x{size}.png"

/-- Line 33: `img.save(...)` — succeeds only when `public` is a directory
and the environment grants the write; otherwise the exception is unhandled
and fatal. -/
def saveImage (env : Env) (fs : FS) (size : Nat) (img : Image) :
    Except String (String × Image) :=
  match fs.publicEntry with
  | some EntryKind.dir =>
      if env.saveOk size then Except.ok (iconName size, img)
      else Except.error "OSError"
  | _ => Except.error "NotADirectoryError"

/-- Observable outcome of a run: the files written (name and content, in
write order), the lines printed to standard output, and the unhandled
exception when the run aborted. -/
structure RunResult where
  files : List (String × Image)
  stdout : List String
  error : Option String
deriving DecidableEq, Repr

/-- Lines 10 to 34: the loop body for the remaining sizes, carrying the
files already written and the lines already printed.  An unhandled save
exception stops the loop at once, keeping what was already produced. -/
def loop (env : Env) (fs : FS) :
    List Nat → List (String × Image) → List String → RunResult
  | [], files, out => ⟨files, out, none⟩
  | size :: rest, files, out =>
    match saveImage env fs size (generateImage env size) with
    | Except.error e => ⟨files, out, some e⟩
    | Except.ok file =>
        loop env fs rest (files ++ [file]) (out ++ [progressLine size])

/-- The whole script, generalized over the size list: the directory
check-and-create of lines 5 and 6 runs once, before the loop; the final
notice of line 36 prints only when the loop finished without an unhandled
exception. -/
def runProgramWith (env : Env) (fs : FS) (szs : List Nat) : FS × RunResult :=
  match ensureDir fs with
  | (fs1, some e) => (fs1, ⟨[], [], some e⟩)
  | (fs1, none) =>
    let r := loop env fs1 szs [] []
    (fs1,
      if r.error.isSome then r
      else { r with stdout := r.stdout ++ ["All icons generated!"] })

/-- Line 8: `sizes = [192, 512]`. -/
def sizes : List Nat := [192, 512]

/-- The script exactly as shipped, over its fixed size list. -/
def runProgram (env : Env) (fs : FS) : FS × RunResult :=
  runProgramWith env fs sizes

/-! ### Helper lemmas -/

lemma fdiv_two_le (a : Int) : 2 * a.fdiv 2 ≤ a := by
  rw [Int.fdiv_eq_ediv _ (by norm_num)]
  omega

lemma lt_fdiv_two_add (a : Int) : a < 2 * a.fdiv 2 + 2 := by
  rw [Int.fdiv_eq_ediv _ (by norm_num)]
  omega

lemma fdiv_two_close (a : Int) : |((a.fdiv 2 : Int) : ℚ) - (a : ℚ) / 2| ≤ 1 := by
  have h1 : 2 * a.fdiv 2 ≤ a := fdiv_two_le a
  have h2 : a < 2 * a.fdiv 2 + 2 := lt_fdiv_two_add a
  have h1q : 2 * ((a.fdiv 2 : ℚ)) ≤ (a : ℚ) := by exact_mod_cast h1
  have h2q : (a : ℚ) < 2 * ((a.fdiv 2 : ℚ)) + 2 := by exact_mod_cast h2
  rw [abs_le]
  constructor <;> linarith

lemma loop_entry_congr (env : Env) {fs1 fs2 : FS}
    (h : fs1.publicEntry = fs2.publicEntry) :
    ∀ (szs : List Nat) (files : List (String × Image)) (out : List String),
      loop env fs1 szs files out = loop env fs2 szs files out := by
  intro szs
  induction szs with
  | nil => intro files out; rfl
  | cons size rest ih =>
      intro files out
      simp only [loop, saveImage, h]
      cases fs2.publicEntry with
      | none => rfl
      | some k =>
          cases k with
          | file => rfl
          | dir =>
              by_cases hs : env.saveOk size = true
              · simp only [hs, if_true]
                exact ih _ _
              · simp only [Bool.not_eq_true] at hs
                simp only [hs]
                rfl

lemma loop_append_ok (env : Env) (fs : FS)
    (hdir : fs.publicEntry = some EntryKind.dir) :
    ∀ (pre rest : List Nat) (files : List (String × Image)) (out : List String),
      (∀ x ∈ pre, env.saveOk x = true) →
      loop env fs (pre ++ rest) files out =
        loop env fs rest
          (files ++ pre.map (fun z => (iconName z, generateImage env z)))
          (out ++ pre.map progressLine) := by
  intro pre
  induction pre with
  | nil => intro rest files out _; simp
  | cons size tail ih =>
      intro rest files out hok
      have hs : env.saveOk size = true := hok size (by simp)
      have htail : ∀ x ∈ tail, env.saveOk x = true := by
        intro x hx; exact hok x (by simp [hx])
      simp only [List.cons_append, loop, saveImage, hdir, hs, if_true]
      rw [List.append_eq, ih rest _ _ htail]
      simp

lemma loop_all_ok (env : Env) (fs : FS)
    (hdir : fs.publicEntry = some EntryKind.dir)
    (szs : List Nat) (files : List (String × Image)) (out : List String)
    (hok : ∀ x ∈ szs, env.saveOk x = true) :
    loop env fs szs files out =
      ⟨files ++ szs.map (fun z => (iconName z, generateImage env z)),
       out ++ szs.map progressLine, none⟩ := by
  have h := loop_append_ok env fs hdir szs [] files out hok
  simpa [loop] using h

lemma loop_error_not_exists (env : Env) (fs : FS) :
    ∀ (szs : List Nat) (files : List (String × Image)) (out : List String),
      (loop env fs szs files out).error ≠ some "FileExistsError" := by
  intro szs
  induction szs with
  | nil => intro files out; simp [loop]
  | cons size rest ih =>
      intro files out
      simp only [loop, saveImage]
      cases h : fs.publicEntry with
      | none => simp
      | some k =>
          cases k with
          | file => simp
          | dir =>
              by_cases hs : env.saveOk size = true
              · simp only [hs, if_true]
                exact ih _ _
              · simp only [Bool.not_eq_true] at hs
                simp [hs]

lemma runProgramWith_fst (env : Env) (fs : FS) (szs : List Nat) :
    (runProgramWith env fs szs).1 = (ensureDir fs).1 := by
  unfold runProgramWith
  rcases h : ensureDir fs with ⟨fs1, err⟩
  cases err <;> simp

lemma ensureDir_snd (fs : FS) : (ensureDir fs).2 = none := by
  obtain ⟨entry, c, m⟩ := fs
  cases entry <;> rfl

lemma ensureDir_entry_isSome (fs : FS) :
    ((ensureDir fs).1.publicEntry).isSome = true := by
  obtain ⟨entry, c, m⟩ := fs
  cases entry <;> rfl

lemma ensureDir_fst_of_exists (fs : FS) (h : path_exists fs = true) :
    (ensureDir fs).1 = { fs with checkCalls := fs.checkCalls + 1 } := by
  unfold ensureDir
  have h1 : path_exists { fs with checkCalls := fs.checkCalls + 1 } = true := h
  simp [h1]

lemma runProgramWith_run (env : Env) (fs : FS) (szs : List Nat) :
    runProgramWith env fs szs =
      ((ensureDir fs).1,
        if (loop env (ensureDir fs).1 szs [] []).error.isSome then
          loop env (ensureDir fs).1 szs [] []
        else { loop env (ensureDir fs).1 szs [] [] with
          stdout := (loop env (ensureDir fs).1 szs [] []).stdout ++
            ["All icons generated!"] }) := by
  unfold runProgramWith
  rcases h : ensureDir fs with ⟨g, e⟩
  have he : e = none := by rw [← ensureDir_snd fs, h]
  subst he
  rfl

lemma runProgramWith_snd_congr (env : Env) {fs1 fs2 : FS} (szs : List Nat)
    (h : (ensureDir fs1).1.publicEntry = (ensureDir fs2).1.publicEntry) :
    (runProgramWith env fs1 szs).2 = (runProgramWith env fs2 szs).2 := by
  rw [runProgramWith_run, runProgramWith_run]
  rw [loop_entry_congr env h szs [] []]

lemma runProgram_ok (env : Env) (fs : FS)
    (hdir : fs.publicEntry ≠ some EntryKind.file)
    (h192 : env.saveOk 192 = true) (h512 : env.saveOk 512 = true) :
    (runProgram env fs).2 =
      ⟨[(iconName 192, generateImage env 192),
        (iconName 512, generateImage env 512)],
       [progressLine 192, progressLine 512, "All icons generated!"],
       none⟩ := by
  have hok : ∀ x ∈ sizes, env.saveOk x = true := by
    intro x hx
    simp only [sizes, List.mem_cons, List.not_mem_nil, or_false] at hx
    rcases hx with rfl | rfl
    · exact h192
    · exact h512
  have hentry : (ensureDir fs).1.publicEntry = some EntryKind.dir := by
    obtain ⟨entry, c, m⟩ := fs
    cases entry with
    | none => rfl
    | some k =>
        cases k with
        | file => exact absurd rfl hdir
        | dir => rfl
  rw [runProgram, runProgramWith_run]
  rw [loop_all_ok env _ hentry sizes [] [] hok]
  simp [sizes]

lemma runProgramWith_error_cases (env : Env) (fs : FS) (szs : List Nat) :
    (runProgramWith env fs szs).2.error ≠ some "FileExistsError" := by
  rw [runProgramWith_run]
  have hne := loop_error_not_exists env (ensureDir fs).1 szs [] []
  cases he : (loop env (ensureDir fs).1 szs [] []).error with
  | none => simp [he]
  | some e =>
      rw [he] at hne
      simp [he, hne]

/-! ### Claim theorems -/

/-- C1: for every processed size, the glyph width equals right minus left
and the glyph height equals bottom minus top of the measured bounding box,
the draw origin is exactly `((size - width) // 2, (size - height) // 2)`
with integer floor division, and no clamping is applied: when the glyph is
wider or taller than the canvas the corresponding coordinate is
negative. -/
theorem C1_position_formula :
    (∀ b : BBox, textWidth b = b.right - b.left ∧ textHeight b = b.bottom - b.top) ∧
    (∀ (size : Nat) (b : BBox), position size b = position_spec size b) ∧
    (∀ (size : Nat) (b : BBox), (size : Int) < textWidth b →
      (position size b).1 < 0) ∧
    (∀ (size : Nat) (b : BBox), (size : Int) < textHeight b →
      (position size b).2 < 0) := by
  refine ⟨fun b => ⟨rfl, rfl⟩, fun size b => rfl, ?_, ?_⟩
  · intro size b h
    show ((size : Int) - textWidth b).fdiv 2 < 0
    rw [Int.fdiv_eq_ediv _ (by norm_num)]
    omega
  · intro size b h
    show ((size : Int) - textHeight b).fdiv 2 < 0
    rw [Int.fdiv_eq_ediv _ (by norm_num)]
    omega

/-- Witness for C1 at size 10 and bounding box (0, 0, 100, 120): both
origin coordinates are negative, with no clamping. -/
theorem C1_position_formula_witness :
    ((10 : Nat) : Int) < textWidth ⟨0, 0, 100, 120⟩ ∧
    (position 10 ⟨0, 0, 100, 120⟩).1 < 0 ∧
    ((10 : Nat) : Int) < textHeight ⟨0, 0, 100, 120⟩ ∧
    (position 10 ⟨0, 0, 100, 120⟩).2 < 0 :=
  ⟨by decide, C1_position_formula.2.2.1 10 ⟨0, 0, 100, 120⟩ (by decide),
   by decide, C1_position_formula.2.2.2 10 ⟨0, 0, 100, 120⟩ (by decide)⟩

/-- C2: when the canvas size is at least the glyph width and height, the
draw origin places the glyph center within one pixel of the canvas center
on each axis, the deviation coming only from floor-division rounding. -/
theorem C2_centering (size : Nat) (b : BBox)
    (hw : textWidth b ≤ (size : Int)) (hh : textHeight b ≤ (size : Int)) :
    |(((position size b).1 : ℚ) + (textWidth b : ℚ) / 2 - (size : ℚ) / 2)| ≤ 1 ∧
    |(((position size b).2 : ℚ) + (textHeight b : ℚ) / 2 - (size : ℚ) / 2)| ≤ 1 := by
  constructor
  · have h := fdiv_two_close ((size : Int) - textWidth b)
    have e : (((position size b).1 : ℚ) + (textWidth b : ℚ) / 2 - (size : ℚ) / 2) =
        (((((size : Int) - textWidth b).fdiv 2 : Int) : ℚ) -
          (((size : Int) - textWidth b : Int) : ℚ) / 2) := by
      show ((((size : Int) - textWidth b).fdiv 2 : Int) : ℚ) +
          (textWidth b : ℚ) / 2 - (size : ℚ) / 2 = _
      push_cast
      ring
    rw [e]
    exact h
  · have h := fdiv_two_close ((size : Int) - textHeight b)
    have e : (((position size b).2 : ℚ) + (textHeight b : ℚ) / 2 - (size : ℚ) / 2) =
        (((((size : Int) - textHeight b).fdiv 2 : Int) : ℚ) -
          (((size : Int) - textHeight b : Int) : ℚ) / 2) := by
      show ((((size : Int) - textHeight b).fdiv 2 : Int) : ℚ) +
          (textHeight b : ℚ) / 2 - (size : ℚ) / 2 = _
      push_cast
      ring
    rw [e]
    exact h

/-- Witness for C2 at size 192 and bounding box (0, 0, 101, 120). -/
theorem C2_centering_witness :
    textWidth ⟨0, 0, 101, 120⟩ ≤ ((192 : Nat) : Int) ∧
    textHeight ⟨0, 0, 101, 120⟩ ≤ ((192 : Nat) : Int) ∧
    (|(((position 192 ⟨0, 0, 101, 120⟩).1 : ℚ) +
        (textWidth ⟨0, 0, 101, 120⟩ : ℚ) / 2 - ((192 : Nat) : ℚ) / 2)| ≤ 1 ∧
     |(((position 192 ⟨0, 0, 101, 120⟩).2 : ℚ) +
        (textHeight ⟨0, 0, 101, 120⟩ : ℚ) / 2 - ((192 : Nat) : ℚ) / 2)| ≤ 1) :=
  ⟨by decide, by decide,
   C2_centering 192 ⟨0, 0, 101, 120⟩ (by decide) (by decide)⟩

/-- C7: the preferred font is requested at the truncated point size
`int(size * 0.4)`, which agrees with integer floor division `2 * size / 5`
on the processed sizes, giving point size 76 for canvas size 192 and 204
for canvas size 512. -/
theorem C7_font_size :
    (∀ (env : Env) (size : Nat),
      resolveFont env size = (env.loadTruetype (font_size size)).getD env.defaultFont) ∧
    font_size 192 = 76 ∧ font_size 512 = 204 ∧
    font_size 192 = 2 * 192 / 5 ∧ font_size 512 = 2 * 512 / 5 := by
  refine ⟨?_, by norm_num [font_size], by norm_num [font_size],
    by norm_num [font_size], by norm_num [font_size]⟩
  intro env size
  unfold resolveFont
  cases h : env.loadTruetype (font_size size) <;> simp [h]

/-- C9: the glyph is drawn at the computed origin with no subtraction of
the bounding box left and top offsets, so the rendered box on the canvas
sits at origin plus (left, top); whenever left or top is nonzero the
rendered box misses the exactly centered coordinate by that offset. -/
theorem C9_offset_not_subtracted :
    (∀ (env : Env) (size : Nat),
      (generateImage env size).texts =
        [⟨position size (textbbox (0, 0) (resolveFont env size)), "B", "white",
          resolveFont env size⟩]) ∧
    (∀ (size : Nat) (f : Font),
      (textbbox (position size (textbbox (0, 0) f)) f).left -
          (position size (textbbox (0, 0) f)).1 = f.bboxB.left ∧
      (textbbox (position size (textbbox (0, 0) f)) f).top -
          (position size (textbbox (0, 0) f)).2 = f.bboxB.top) ∧
    (∀ (size : Nat) (f : Font), f.bboxB.left ≠ 0 →
      (textbbox (position size (textbbox (0, 0) f)) f).left ≠
        (position size (textbbox (0, 0) f)).1) ∧
    (∀ (size : Nat) (f : Font), f.bboxB.top ≠ 0 →
      (textbbox (position size (textbbox (0, 0) f)) f).top ≠
        (position size (textbbox (0, 0) f)).2) := by
  refine ⟨fun env size => rfl, fun size f => ⟨?_, ?_⟩, ?_, ?_⟩
  · simp [textbbox]
  · simp [textbbox]
  · intro size f h
    simp only [textbbox]
    omega
  · intro size f h
    simp only [textbbox]
    omega

/-- Witness for C9 at size 192 and the font whose bounding box for the
letter is (1, -2, 11, 10): the rendered box is displaced from exact
centering. -/
theorem C9_offset_not_subtracted_witness :
    (Font.mk ⟨1, -2, 11, 10⟩).bboxB.left ≠ 0 ∧
    (textbbox (position 192 (textbbox (0, 0) (Font.mk ⟨1, -2, 11, 10⟩)))
        (Font.mk ⟨1, -2, 11, 10⟩)).left ≠
      (position 192 (textbbox (0, 0) (Font.mk ⟨1, -2, 11, 10⟩))).1 ∧
    (Font.mk ⟨1, -2, 11, 10⟩).bboxB.top ≠ 0 ∧
    (textbbox (position 192 (textbbox (0, 0) (Font.mk ⟨1, -2, 11, 10⟩)))
        (Font.mk ⟨1, -2, 11, 10⟩)).top ≠
      (position 192 (textbbox (0, 0) (Font.mk ⟨1, -2, 11, 10⟩))).2 :=
  ⟨by decide, C9_offset_not_subtracted.2.2.1 192 (Font.mk ⟨1, -2, 11, 10⟩) (by decide),
   by decide, C9_offset_not_subtracted.2.2.2 192 (Font.mk ⟨1, -2, 11, 10⟩) (by decide)⟩

/-- C3: a failure of the preferred font load is silently replaced by the
default font, no error reaches the caller, and the run still completes
with both output files; this holds for every font-loading outcome. -/
theorem C3_font_fallback (env : Env) (fs : FS)
    (hdir : fs.publicEntry = some EntryKind.dir)
    (hsave : ∀ s ∈ sizes, env.saveOk s = true) :
    (∀ size : Nat, env.loadTruetype (font_size size) = none →
      resolveFont env size = env.defaultFont) ∧
    (runProgram env fs).2.error = none ∧
    (runProgram env fs).2.files =
      [(iconName 192, generateImage env 192),
       (iconName 512, generateImage env 512)] := by
  have hok := runProgram_ok env fs (by rw [hdir]; intro h; cases h)
    (hsave 192 (by simp [sizes])) (hsave 512 (by simp [sizes]))
  refine ⟨?_, by rw [hok], by rw [hok]⟩
  intro size h
  unfold resolveFont
  rw [h]

/-- Witness for C3: the font loader always fails, every save succeeds, and
the run completes with both files rendered with the default font. -/
theorem C3_font_fallback_witness :
    ((⟨some EntryKind.dir, 0, 0⟩ : FS).publicEntry = some EntryKind.dir) ∧
    (∀ s ∈ sizes,
      (Env.mk (fun _ => none) ⟨⟨0, 0, 5, 7⟩⟩ (fun _ => true)).saveOk s = true) ∧
    ((∀ size : Nat,
        (Env.mk (fun _ => none) ⟨⟨0, 0, 5, 7⟩⟩
          (fun _ => true)).loadTruetype (font_size size) = none →
        resolveFont (Env.mk (fun _ => none) ⟨⟨0, 0, 5, 7⟩⟩ (fun _ => true)) size =
          (Env.mk (fun _ => none) ⟨⟨0, 0, 5, 7⟩⟩ (fun _ => true)).defaultFont) ∧
      (runProgram (Env.mk (fun _ => none) ⟨⟨0, 0, 5, 7⟩⟩ (fun _ => true))
        ⟨some EntryKind.dir, 0, 0⟩).2.error = none ∧
      (runProgram (Env.mk (fun _ => none) ⟨⟨0, 0, 5, 7⟩⟩ (fun _ => true))
        ⟨some EntryKind.dir, 0, 0⟩).2.files =
        [(iconName 192,
          generateImage (Env.mk (fun _ => none) ⟨⟨0, 0, 5, 7⟩⟩ (fun _ => true)) 192),
         (iconName 512,
          generateImage (Env.mk (fun _ => none) ⟨⟨0, 0, 5, 7⟩⟩ (fun _ => true)) 512)]) :=
  ⟨rfl, by decide,
   C3_font_fallback (Env.mk (fun _ => none) ⟨⟨0, 0, 5, 7⟩⟩ (fun _ => true))
     ⟨some EntryKind.dir, 0, 0⟩ rfl (by decide)⟩

/-- C4: when the save of one size fails, the remaining sizes are not
processed, the files and progress lines of the earlier sizes are exactly
the ones produced, and the completion line is absent. -/
theorem C4_write_failure_aborts (env : Env) (fs : FS) (pre : List Nat)
    (s : Nat) (post : List Nat)
    (hdir : fs.publicEntry = some EntryKind.dir)
    (hpre : ∀ x ∈ pre, env.saveOk x = true) (hs : env.saveOk s = false) :
    (runProgramWith env fs (pre ++ s :: post)).2 =
      ⟨pre.map (fun z => (iconName z, generateImage env z)),
       pre.map progressLine, some "OSError"⟩ := by
  have hentry : (ensureDir fs).1.publicEntry = some EntryKind.dir := by
    obtain ⟨entry, c, m⟩ := fs
    cases hdir
    rfl
  rw [runProgramWith_run]
  rw [loop_append_ok env _ hentry pre (s :: post) [] [] hpre]
  simp only [loop, saveImage, hentry, hs, List.nil_append]
  rfl

/-- Witness for C4: the save of size 512 fails after the save of size 192
succeeded; only the first icon and its progress line are produced, and the
completion line is missing. -/
theorem C4_write_failure_aborts_witness :
    ((⟨some EntryKind.dir, 0, 0⟩ : FS).publicEntry = some EntryKind.dir) ∧
    (∀ x ∈ [192],
      (Env.mk (fun _ => none) ⟨⟨0, 0, 5, 7⟩⟩ (fun s => s == 192)).saveOk x = true) ∧
    (Env.mk (fun _ => none) ⟨⟨0, 0, 5, 7⟩⟩ (fun s => s == 192)).saveOk 512 = false ∧
    (runProgramWith (Env.mk (fun _ => none) ⟨⟨0, 0, 5, 7⟩⟩ (fun s => s == 192))
        ⟨some EntryKind.dir, 0, 0⟩ ([192] ++ 512 :: [])).2 =
      ⟨[192].map (fun z =>
          (iconName z,
           generateImage
             (Env.mk (fun _ => none) ⟨⟨0, 0, 5, 7⟩⟩ (fun s => s == 192)) z)),
       [192].map progressLine, some "OSError"⟩ :=
  ⟨rfl, by decide, by decide,
   C4_write_failure_aborts
     (Env.mk (fun _ => none) ⟨⟨0, 0, 5, 7⟩⟩ (fun s => s == 192))
     ⟨some EntryKind.dir, 0, 0⟩ [192] 512 [] rfl (by decide) (by decide)⟩

/-- C5: the directory check runs exactly once per process run whatever the
size list, creation happens at most once and is skipped without error when
an entry already exists, and a second run of the whole program never calls
`os.makedirs` again nor fails with `FileExistsError`. -/
theorem C5_dir_once_idempotent :
    (∀ (env : Env) (fs : FS) (szs : List Nat),
      (runProgramWith env fs szs).1.checkCalls = fs.checkCalls + 1 ∧
      (runProgramWith env fs szs).1.mkdirCalls ≤ fs.mkdirCalls + 1) ∧
    (∀ (env : Env) (fs : FS) (szs : List Nat), path_exists fs = true →
      (runProgramWith env fs szs).1 =
        { fs with checkCalls := fs.checkCalls + 1 }) ∧
    (∀ (env1 env2 : Env) (fs : FS) (szs1 szs2 : List Nat),
      (runProgramWith env2 (runProgramWith env1 fs szs1).1 szs2).1.mkdirCalls =
        (runProgramWith env1 fs szs1).1.mkdirCalls ∧
      (runProgramWith env2 (runProgramWith env1 fs szs1).1 szs2).2.error ≠
        some "FileExistsError") := by
  have hfst : ∀ (env : Env) (fs : FS) (szs : List Nat),
      (runProgramWith env fs szs).1 = (ensureDir fs).1 :=
    fun env fs szs => runProgramWith_fst env fs szs
  refine ⟨fun env fs szs => ?_, fun env fs szs h => ?_,
    fun env1 env2 fs szs1 szs2 => ⟨?_, runProgramWith_error_cases _ _ _⟩⟩
  · rw [hfst]
    obtain ⟨entry, c, m⟩ := fs
    cases entry <;> simp [ensureDir, path_exists, makedirs]
  · rw [hfst]
    exact ensureDir_fst_of_exists fs h
  · rw [hfst, hfst,
      ensureDir_fst_of_exists (ensureDir fs).1 (ensureDir_entry_isSome fs)]

/-- Witness for C5: with the directory already present, a run leaves the
entry and the creation counter untouched and only bumps the check
counter. -/
theorem C5_dir_once_idempotent_witness :
    path_exists ⟨some EntryKind.dir, 0, 0⟩ = true ∧
    (runProgramWith (Env.mk (fun _ => none) ⟨⟨0, 0, 5, 7⟩⟩ (fun _ => true))
        ⟨some EntryKind.dir, 0, 0⟩ sizes).1 =
      { (⟨some EntryKind.dir, 0, 0⟩ : FS) with
        checkCalls := (⟨some EntryKind.dir, 0, 0⟩ : FS).checkCalls + 1 } :=
  ⟨by decide,
   C5_dir_once_idempotent.2.1
     (Env.mk (fun _ => none) ⟨⟨0, 0, 5, 7⟩⟩ (fun _ => true))
     ⟨some EntryKind.dir, 0, 0⟩ sizes (by decide)⟩

/-- C6: a successful run over the fixed sizes produces exactly the two
files `public/icon-192x192.png` and `public/icon-512x512.png` in that
order, each canvas having exactly the declared pixel dimensions. -/
theorem C6_output_files (env : Env) (fs : FS)
    (hdir : fs.publicEntry ≠ some EntryKind.file)
    (h192 : env.saveOk 192 = true) (h512 : env.saveOk 512 = true) :
    (runProgram env fs).2.files =
      [("public/icon-192x192.png", generateImage env 192),
       ("public/icon-512x512.png", generateImage env 512)] ∧
    (runProgram env fs).2.stdout =
      ["Created icon-192x192.png", "Created icon-512x512.png",
       "All icons generated!"] ∧
    (runProgram env fs).2.error = none ∧
    (generateImage env 192).width = 192 ∧ (generateImage env 192).height = 192 ∧
    (generateImage env 512).width = 512 ∧ (generateImage env 512).height = 512 := by
  have hok := runProgram_ok env fs hdir h192 h512
  rw [hok]
  refine ⟨?_, ?_, rfl, rfl, rfl, rfl, rfl⟩
  · rw [show iconName 192 = "public/icon-192x192.png" from by decide,
      show iconName 512 = "public/icon-512x512.png" from by decide]
  · rw [show progressLine 192 = "Created icon-192x192.png" from by decide,
      show progressLine 512 = "Created icon-512x512.png" from by decide]

/-- Witness for C6 with a concrete environment in which both saves
succeed. -/
theorem C6_output_files_witness :
    ((⟨none, 0, 0⟩ : FS).publicEntry ≠ some EntryKind.file) ∧
    (Env.mk (fun _ => none) ⟨⟨0, 0, 5, 7⟩⟩ (fun _ => true)).saveOk 192 = true ∧
    (Env.mk (fun _ => none) ⟨⟨0, 0, 5, 7⟩⟩ (fun _ => true)).saveOk 512 = true ∧
    (runProgram (Env.mk (fun _ => none) ⟨⟨0, 0, 5, 7⟩⟩ (fun _ => true))
        ⟨none, 0, 0⟩).2.files =
      [("public/icon-192x192.png",
        generateImage (Env.mk (fun _ => none) ⟨⟨0, 0, 5, 7⟩⟩ (fun _ => true)) 192),
       ("public/icon-512x512.png",
        generateImage (Env.mk (fun _ => none) ⟨⟨0, 0, 5, 7⟩⟩ (fun _ => true)) 512)] :=
  ⟨by decide, rfl, rfl,
   (C6_output_files (Env.mk (fun _ => none) ⟨⟨0, 0, 5, 7⟩⟩ (fun _ => true))
     ⟨none, 0, 0⟩ (by decide) rfl rfl).1⟩

/-- C8: generation is deterministic — the canvas for a size depends only
on the font-loading outcome, a repeated run of the whole program yields
the same observable result, and therefore the encoded bytes of the output
files agree for any encoder. -/
theorem C8_determinism :
    (∀ (env1 env2 : Env) (size : Nat),
      env1.loadTruetype = env2.loadTruetype → env1.defaultFont = env2.defaultFont →
      generateImage env1 size = generateImage env2 size) ∧
    (∀ (env : Env) (fs : FS),
      (runProgram env (runProgram env fs).1).2 = (runProgram env fs).2) ∧
    (∀ (env : Env) (fs : FS) (encode : Image → List Nat),
      ((runProgram env (runProgram env fs).1).2.files.map
          (fun p => (p.1, encode p.2))) =
        ((runProgram env fs).2.files.map (fun p => (p.1, encode p.2)))) := by
  have hgen : ∀ (env1 env2 : Env) (size : Nat),
      env1.loadTruetype = env2.loadTruetype → env1.defaultFont = env2.defaultFont →
      generateImage env1 size = generateImage env2 size := by
    intro env1 env2 size h1 h2
    unfold generateImage resolveFont
    rw [h1, h2]
  have hrun : ∀ (env : Env) (fs : FS),
      (runProgram env (runProgram env fs).1).2 = (runProgram env fs).2 := by
    intro env fs
    have hfs1 : (runProgramWith env fs sizes).1 = (ensureDir fs).1 :=
      runProgramWith_fst env fs sizes
    rw [runProgram, runProgram, hfs1]
    apply runProgramWith_snd_congr
    rw [ensureDir_fst_of_exists (ensureDir fs).1 (ensureDir_entry_isSome fs)]
  exact ⟨hgen, hrun, fun env fs encode => by rw [hrun env fs]⟩

/-- Witness for C8: two environments equal on font loading but different
on save outcomes render the same canvas at size 192. -/
theorem C8_determinism_witness :
    (Env.mk (fun _ => none) ⟨⟨0, 0, 5, 7⟩⟩ (fun _ => true)).loadTruetype =
      (Env.mk (fun _ => none) ⟨⟨0, 0, 5, 7⟩⟩ (fun _ => false)).loadTruetype ∧
    (Env.mk (fun _ => none) ⟨⟨0, 0, 5, 7⟩⟩ (fun _ => true)).defaultFont =
      (Env.mk (fun _ => none) ⟨⟨0, 0, 5, 7⟩⟩ (fun _ => false)).defaultFont ∧
    generateImage (Env.mk (fun _ => none) ⟨⟨0, 0, 5, 7⟩⟩ (fun _ => true)) 192 =
      generateImage (Env.mk (fun _ => none) ⟨⟨0, 0, 5, 7⟩⟩ (fun _ => false)) 192 :=
  ⟨rfl, rfl,
   C8_determinism.1 (Env.mk (fun _ => none) ⟨⟨0, 0, 5, 7⟩⟩ (fun _ => true))
     (Env.mk (fun _ => none) ⟨⟨0, 0, 5, 7⟩⟩ (fun _ => false)) 192 rfl rfl⟩

/-- C10: the directory step only checks that some entry named `public`
exists; when a regular file of that name is present, creation is skipped
without error and the run fails at the first file write, having produced
no file and no output line. -/
theorem C10_exists_check_not_isdir (env : Env) (c m : Nat) :
    (runProgram env ⟨some EntryKind.file, c, m⟩).1.mkdirCalls = m ∧
    (runProgram env ⟨some EntryKind.file, c, m⟩).1.publicEntry =
      some EntryKind.file ∧
    (runProgram env ⟨some EntryKind.file, c, m⟩).2 =
      ⟨[], [], some "NotADirectoryError"⟩ := by
  refine ⟨?_, ?_, ?_⟩ <;>
    simp [runProgram, runProgramWith, ensureDir, path_exists, sizes, loop,
      saveImage]

end Buzz
